import Mathlib

/-!
Shallow embedding of the data-marshaling and library-loading utilities of
the `gmt.clib.utils` module (file `src/gmt/clib/utils.py`).

Numeric coordinate arrays are modelled as lists of rationals; numpy arrays
carry their (logical, row-major) data, their shape and their C-contiguity
flag.  Fallible functions return `Except`.  Raised Python exceptions that
are *not* among the typed error classes of the library (for instance a numpy
`IndexError`) are modelled by a separate error constructor, so that the
propagation policy of the typed errors can be stated.
-/

deriving instance DecidableEq for Except

namespace GmtClib

/-- Model of the Python method `str.startswith`: the characters of the needle form a prefix
of the characters of the string. -/
def str_startswith (s p : String) : Bool := p.data.isPrefixOf s.data

/-- Model of the Python method `str.endswith`: the characters of the needle form a suffix of
the characters of the string. -/
def str_endswith (s p : String) : Bool := p.data.isSuffixOf s.data

/-- The typed error classes of the package (`gmt.exceptions`). -/
inductive GMTError where
  | osError (msg : String)
  | clibError (msg : String)
  | clibNotFound (msg : String)
  | invalidInput (msg : String)
  deriving DecidableEq, Repr

/-- A Python-level failure: either a typed error of the package, or a
raw untyped exception (such as the numpy `IndexError` when indexing an empty
difference array). -/
inductive PyError where
  | typed (e : GMTError)
  | indexError
  deriving DecidableEq, Repr

/-- Model of a numpy `ndarray`: shape, logical data in row-major reading
order, and the `flags.c_contiguous` bit. -/
structure NpArray where
  shape : List Nat
  data : List ℚ
  c_contiguous : Bool
  deriving DecidableEq, Repr

/-- Model of an `xarray.DataArray`: the ordered dimensions, each dimension
name paired with its coordinate axis values, plus the underlying values
array. -/
structure DataArray where
  dims : List (String × List ℚ)
  values : NpArray
  deriving DecidableEq, Repr

/-- Source function `as_c_contiguous` (lines 159-199): return the array itself when it is
already C contiguous, otherwise a copy in C order, which keeps the
logical data and shape and yields a C-contiguous array. -/
def as_c_contiguous (array : NpArray) : NpArray :=
  if array.c_contiguous then array
  else { array with c_contiguous := true }

/-- The expression `coord[1:] - coord[0:-1]`: the consecutive coordinate differences. -/
def coordIncs (coord : List ℚ) : List ℚ :=
  List.zipWith (fun a b => a - b) coord.tail coord

/-- Model of `numpy.isclose` with the default tolerances
`rtol = 1e-05`, `atol = 1e-08`. -/
def np_isclose (a b : ℚ) : Bool :=
  decide (|a - b| ≤ 1 / 100000000 + 1 / 100000 * |b|)

/-- Model of `numpy.allclose(xs, y)` for a scalar `y`, default tolerances. -/
def np_allclose (xs : List ℚ) (y : ℚ) : Bool :=
  xs.all (fun x => np_isclose x y)

/-- The value of `coord.min()` for a nonempty coordinate array. -/
def listMin (l : List ℚ) : ℚ := l.foldl min (l.headD 0)

/-- The value of `coord.max()` for a nonempty coordinate array. -/
def listMax (l : List ℚ) : ℚ := l.foldl max (l.headD 0)

/-- The `GMTInvalidInput` message for irregular spacing (lines 103-105). -/
def irregularMsg (dim : String) : String :=
  "Grid appears to have irregular spacing in the \x27" ++ dim ++ "\x27 dimension."

/-- The `GMTInvalidInput` message for a wrong dimension count (lines 89-91). -/
def dimsMsg (n : Nat) : String :=
  "Invalid number of grid dimensions \x27" ++ toString n ++ "\x27. Must be 2."

/-- The loop body of `dataarray_to_matrix` (lines 98-107), applied to the
already-reversed dimension list.  For each dimension: take the consecutive
coordinate differences, read their first entry (an `IndexError` when the
axis has fewer than two points), check uniformity with `np.allclose`,
extend the region with `[min, max]` and append the first difference to the
increments. -/
def extractDims : List (String × List ℚ) → Except PyError (List ℚ × List ℚ)
  | [] => Except.ok ([], [])
  | (dim, coord) :: rest =>
    match coordIncs coord with
    | [] => Except.error PyError.indexError
    | i0 :: tl =>
      if np_allclose (i0 :: tl) i0 then
        match extractDims rest with
        | Except.error e => Except.error e
        | Except.ok (region, inc) =>
          Except.ok (listMin coord :: listMax coord :: region, i0 :: inc)
      else Except.error (PyError.typed (GMTError.invalidInput (irregularMsg dim)))

/-- Source function `dataarray_to_matrix` (lines 88-109): reject grids whose dimension
count is not two, process the dimensions in reversed order to build region
and increments, and return the values forced to C-contiguous layout. -/
def dataarray_to_matrix (grid : DataArray) :
    Except PyError (NpArray × List ℚ × List ℚ) :=
  if grid.dims.length ≠ 2 then
    Except.error (PyError.typed (GMTError.invalidInput (dimsMsg grid.dims.length)))
  else
    match extractDims grid.dims.reverse with
    | Except.error e => Except.error e
    | Except.ok (region, inc) =>
      Except.ok (as_c_contiguous grid.values, region, inc)

/-- Source function `clib_extension` (lines 333-344) with an explicit `os_name` argument.
`sys_platform` models the ambient `sys.platform`; note that the source
formats `sys.platform`, not `os_name`, into the error message. -/
def clib_extension (sys_platform os_name : String) : Except GMTError String :=
  if str_startswith os_name ("linux") then Except.ok ("so")
  else if os_name = "darwin" then Except.ok ("dylib")
  else Except.error (GMTError.osError
    ("Operating system \x22" ++ sys_platform ++ "\x22 not supported."))

/-- Model of `os.path.join(a, b)` on a POSIX system. -/
def os_path_join (a b : String) : String :=
  if str_startswith b ("/") then b
  else if a = "" ∨ str_endswith a ("/") then a ++ b
  else a ++ "/" ++ b

/-- Source function `get_clib_path` (lines 284-310) with the environment given as an
explicit association list (the `env is None` branch merely substitutes the
process environment, another such mapping). -/
def get_clib_path (sys_platform : String) (env : List (String × String)) :
    Except GMTError String :=
  match clib_extension sys_platform sys_platform with
  | Except.error e => Except.error e
  | Except.ok ext =>
    let libname := String.intercalate ("." ) [("libgmt"), ext]
    match env.lookup ("GMT_LIBRARY_PATH") with
    | some dir => Except.ok (os_path_join dir libname)
    | none => Except.ok libname

/-- A loaded shared-library handle (`ctypes.CDLL`): all the model needs is
which attribute names resolve (`hasattr`). -/
structure CDLL where
  hasattr : String → Bool

/-- The fixed list of required entry points (lines 367-368). -/
def required_functions : List String :=
  [("Create_Session"), ("Get_Enum"), ("Call_Module"), ("Destroy_Session")]

/-- The `GMTCLibError` message for a missing symbol (lines 371-374). -/
def missingSymbolMsg (func : String) : String :=
  "Error loading libgmt. Couldn\x27t access function GMT_" ++ func ++ "."

/-- The symbol check loop of `check_libgmt` (lines 369-375). -/
def checkFunctions (libgmt : CDLL) : List String → Except GMTError Unit
  | [] => Except.ok ()
  | func :: rest =>
    if libgmt.hasattr ("GMT_" ++ func) then checkFunctions libgmt rest
    else Except.error (GMTError.clibError (missingSymbolMsg func))

/-- Source function `check_libgmt` (lines 347-375). -/
def check_libgmt (libgmt : CDLL) : Except GMTError Unit :=
  checkFunctions libgmt required_functions

/-- The `GMTCLibNotFoundError` message of `load_libgmt` (lines 275-279):
a newline join of the attempted path line, a fixed line, and the
underlying system error text. -/
def notFoundMsg (libpath err : String) : String :=
  String.intercalate ("\n")
    [("Couldn\x27t find the GMT shared library \x27" ++ libpath ++ "\x27."),
     ("Original error message:"), err]

/-- Source function `load_libgmt` (lines 244-281).  Here `cdll_open` models `ctypes.CDLL`,
returning either a handle or the text of the raised `OSError`.  A raised
`OSError` is wrapped into `GMTCLibNotFoundError`; a `GMTCLibError` from
`check_libgmt` is not an `OSError`, so it propagates unwrapped, and the
handle is not returned. -/
def load_libgmt (sys_platform : String)
    (cdll_open : String → Except String CDLL)
    (env : List (String × String)) : Except GMTError CDLL :=
  match get_clib_path sys_platform env with
  | Except.error e => Except.error e
  | Except.ok libpath =>
    match cdll_open libpath with
    | Except.error err =>
      Except.error (GMTError.clibNotFound (notFoundMsg libpath err))
    | Except.ok libgmt =>
      match check_libgmt libgmt with
      | Except.error e => Except.error e
      | Except.ok _ => Except.ok libgmt

/-! ### Concrete test inputs -/

/-- A uniformly spaced coordinate axis with a given start, step and length
(`numpy.arange`-style construction of the synthetic grids below). -/
def arange (start step : ℚ) : Nat → List ℚ
  | 0 => []
  | n + 1 => start :: arange (start + step) step n

/-- The latitudes `-90, -89, ..., 90`. -/
def exampleLat : List ℚ := arange (-90) 1 181

/-- The longitudes `-180, -179, ..., 180`. -/
def exampleLon : List ℚ := arange (-180) 1 361

/-- The synthetic global 1-degree grid of the specification: rows are the
latitudes, columns the longitudes, values C contiguous of shape
`(181, 361)`. -/
def exampleGrid : DataArray :=
  ⟨[("lat", exampleLat), ("lon", exampleLon)],
   ⟨[181, 361], List.replicate 65341 0, true⟩⟩

/-- A grid whose row axis decreases uniformly (`2, 1, 0`). -/
def decGrid : DataArray :=
  ⟨[("lat", [(2 : ℚ), 1, 0]), ("lon", [(0 : ℚ), 1, 2])],
   ⟨[3, 3], List.replicate 9 0, true⟩⟩

/-- A two-dimensional grid whose first axis has a single coordinate
point. -/
def shortAxisGrid : DataArray :=
  ⟨[("y", [(5 : ℚ)]), ("x", [0, 1])], ⟨[1, 2], [0, 0], true⟩⟩

/-- A grid with irregular spacing (`0, 1, 3`) in its column axis. -/
def irrGrid : DataArray :=
  ⟨[("lat", [(0 : ℚ), 1, 2]), ("lon", [(0 : ℚ), 1, 3])],
   ⟨[3, 3], List.replicate 9 0, true⟩⟩

/-- A three-dimensional grid (each axis regular with two points). -/
def grid3 : DataArray :=
  ⟨[("a", [(0 : ℚ), 1]), ("b", [(0 : ℚ), 1]), ("c", [(0 : ℚ), 1])],
   ⟨[2, 2, 2], List.replicate 8 0, true⟩⟩

/-- A concrete C-contiguous one-dimensional array. -/
def contArray : NpArray := ⟨[3], [1, 2, 3], true⟩

/-- A concrete non-contiguous array (a column slice of a larger array). -/
def sliceArray : NpArray := ⟨[3], [1, 2, 3], false⟩

/-- Decides whether an extractor outcome avoided the raw untyped error. -/
def noUntypedError (r : Except PyError (NpArray × List ℚ × List ℚ)) : Bool :=
  match r with
  | Except.error PyError.indexError => false
  | _ => true

/-! ### Evaluation lemmas for uniformly spaced axes -/

lemma coordIncs_arange (s : ℚ) :
    ∀ (n : Nat) (a : ℚ), coordIncs (arange a s (n + 1)) = List.replicate n s := by
  intro n
  induction n with
  | zero => intro a; rfl
  | succ m ih =>
    intro a
    have h := ih (a + s)
    simp only [coordIncs, arange, List.tail_cons] at h ⊢
    simp only [List.zipWith_cons_cons, h, List.replicate_succ, List.cons.injEq, and_true]
    ring

lemma np_isclose_self (s : ℚ) : np_isclose s s = true := by
  simp only [np_isclose, sub_self, abs_zero, decide_eq_true_eq]
  positivity

lemma np_allclose_replicate (n : Nat) (s : ℚ) :
    np_allclose (List.replicate n s) s = true := by
  simp [np_allclose, List.all_eq_true, np_isclose_self]

lemma foldl_min_arange (s : ℚ) (hs : 0 ≤ s) :
    ∀ (n : Nat) (a acc : ℚ), (arange a s (n + 1)).foldl min acc = min acc a := by
  intro n
  induction n with
  | zero => intro a acc; simp [arange]
  | succ m ih =>
    intro a acc
    have h := ih (a + s) (min acc a)
    simp only [arange, List.foldl_cons] at h ⊢
    rw [h, min_assoc]
    have : min a (a + s) = a := min_eq_left (by linarith)
    rw [this]

lemma foldl_max_arange (s : ℚ) (hs : 0 ≤ s) :
    ∀ (n : Nat) (a acc : ℚ),
      (arange a s (n + 1)).foldl max acc = max acc (a + n * s) := by
  intro n
  induction n with
  | zero => intro a acc; simp [arange]
  | succ m ih =>
    intro a acc
    have h := ih (a + s) (max acc a)
    simp only [arange, List.foldl_cons] at h ⊢
    rw [h, max_assoc]
    have h1 : a + s + (m : ℚ) * s = a + ((m : ℚ) + 1) * s := by ring
    have h2 : max a (a + ((m : ℚ) + 1) * s) = a + ((m : ℚ) + 1) * s := by
      apply max_eq_right
      nlinarith [Nat.cast_nonneg (α := ℚ) m]
    rw [h1, h2]
    push_cast
    ring_nf

lemma listMin_arange (a s : ℚ) (n : Nat) (hs : 0 ≤ s) :
    listMin (arange a s (n + 1)) = a := by
  simp only [listMin, arange, List.headD_cons, List.foldl_cons, min_self]
  cases n with
  | zero => rfl
  | succ m => rw [foldl_min_arange s hs m (a + s) a]; exact min_eq_left (by linarith)

lemma listMax_arange (a s : ℚ) (n : Nat) (hs : 0 ≤ s) :
    listMax (arange a s (n + 1)) = a + n * s := by
  simp only [listMax, arange, List.headD_cons, List.foldl_cons, max_self]
  cases n with
  | zero => simp [arange]
  | succ m =>
    rw [foldl_max_arange s hs m (a + s) a]
    have h1 : a + s + (m : ℚ) * s = a + ((m : ℚ) + 1) * s := by ring
    rw [h1]
    have h2 : max a (a + ((m : ℚ) + 1) * s) = a + ((m : ℚ) + 1) * s := by
      apply max_eq_right
      nlinarith [Nat.cast_nonneg (α := ℚ) m]
    rw [h2]
    push_cast
    ring

/-! ### Characterization lemmas for the grid-extraction loop -/

lemma extractDims_cons_short (d : String) (coord : List ℚ)
    (rest : List (String × List ℚ)) (hinc : coordIncs coord = []) :
    extractDims ((d, coord) :: rest) = Except.error PyError.indexError := by
  simp [extractDims, hinc]

lemma extractDims_cons (d : String) (coord : List ℚ)
    (rest : List (String × List ℚ)) (i0 : ℚ) (tl : List ℚ)
    (hinc : coordIncs coord = i0 :: tl) :
    extractDims ((d, coord) :: rest) =
      if np_allclose (i0 :: tl) i0 then
        Except.map (fun p => (listMin coord :: listMax coord :: p.1, i0 :: p.2))
          (extractDims rest)
      else Except.error (PyError.typed (GMTError.invalidInput (irregularMsg d))) := by
  simp only [extractDims, hinc]
  by_cases hcl : np_allclose (i0 :: tl) i0
  · simp only [hcl, if_true]
    cases h : extractDims rest with
    | error e => simp [Except.map]
    | ok p =>
      cases p
      simp [Except.map]
  · simp [hcl]

lemma dataarray_to_matrix_two (grid : DataArray) (h : grid.dims.length = 2) :
    dataarray_to_matrix grid =
      Except.map (fun p => (as_c_contiguous grid.values, p.1, p.2))
        (extractDims grid.dims.reverse) := by
  simp only [dataarray_to_matrix, h, ne_eq, not_true_eq_false, if_false]
  cases hE : extractDims grid.dims.reverse with
  | error e => simp [Except.map]
  | ok p =>
    cases p
    simp [Except.map]

lemma dataarray_ok_two (d1 d2 : String) (c1 c2 : List ℚ) (v m : NpArray)
    (region inc : List ℚ)
    (h : dataarray_to_matrix ⟨[(d1, c1), (d2, c2)], v⟩ = Except.ok (m, region, inc)) :
    m = as_c_contiguous v ∧
    region = [listMin c2, listMax c2, listMin c1, listMax c1] ∧
    inc = [(coordIncs c2).headD 0, (coordIncs c1).headD 0] := by
  rw [dataarray_to_matrix_two _ (by rfl)] at h
  have hrev : (DataArray.mk [(d1, c1), (d2, c2)] v).dims.reverse
      = [(d2, c2), (d1, c1)] := by rfl
  rw [hrev] at h
  cases h2 : coordIncs c2 with
  | nil => rw [extractDims_cons_short _ _ _ h2] at h; cases h
  | cons i2 t2 =>
    rw [extractDims_cons _ _ _ _ _ h2] at h
    by_cases hcl2 : np_allclose (i2 :: t2) i2
    · rw [if_pos hcl2] at h
      cases h1 : coordIncs c1 with
      | nil => rw [extractDims_cons_short _ _ _ h1] at h; cases h
      | cons i1 t1 =>
        rw [extractDims_cons _ _ _ _ _ h1] at h
        by_cases hcl1 : np_allclose (i1 :: t1) i1
        · rw [if_pos hcl1] at h
          simp only [extractDims, Except.map, Except.ok.injEq, Prod.mk.injEq] at h
          obtain ⟨hm, hr, hi⟩ := h
          refine ⟨hm.symm, hr.symm, ?_⟩
          rw [← hi]
          rfl
        · rw [if_neg hcl1] at h
          simp [Except.map] at h
    · rw [if_neg hcl2] at h
      cases h

lemma dataarray_example :
    dataarray_to_matrix exampleGrid =
      Except.ok (exampleGrid.values, [-180, 180, -90, 90], [1, 1]) := by
  have h360 : (List.replicate 360 (1 : ℚ)) = 1 :: List.replicate 359 1 := rfl
  have h180 : (List.replicate 180 (1 : ℚ)) = 1 :: List.replicate 179 1 := rfl
  have hlon : coordIncs exampleLon = 1 :: List.replicate 359 1 := by
    rw [show exampleLon = arange (-180) 1 (360 + 1) from rfl, coordIncs_arange, h360]
  have hlat : coordIncs exampleLat = 1 :: List.replicate 179 1 := by
    rw [show exampleLat = arange (-90) 1 (180 + 1) from rfl, coordIncs_arange, h180]
  rw [dataarray_to_matrix_two _ (by rfl),
      show exampleGrid.dims.reverse = [("lon", exampleLon), ("lat", exampleLat)] from rfl,
      extractDims_cons _ _ _ _ _ hlon, extractDims_cons _ _ _ _ _ hlat,
      ← h360, np_allclose_replicate, ← h180, np_allclose_replicate]
  rw [if_pos rfl, if_pos rfl]
  have hminLon : listMin exampleLon = -180 :=
    listMin_arange (-180) 1 360 (by norm_num)
  have hmaxLon : listMax exampleLon = 180 := by
    rw [show exampleLon = arange (-180) 1 (360 + 1) from rfl,
        listMax_arange (-180) 1 360 (by norm_num)]
    norm_num
  have hminLat : listMin exampleLat = -90 :=
    listMin_arange (-90) 1 180 (by norm_num)
  have hmaxLat : listMax exampleLat = 90 := by
    rw [show exampleLat = arange (-90) 1 (180 + 1) from rfl,
        listMax_arange (-90) 1 180 (by norm_num)]
    norm_num
  simp only [extractDims, Except.map, hminLon, hmaxLon, hminLat, hmaxLat]
  rfl

lemma checkFunctions_eq (lib : CDLL) : ∀ l : List String,
    checkFunctions lib l =
      match l.find? (fun f => ! lib.hasattr ("GMT_" ++ f)) with
      | none => Except.ok ()
      | some f => Except.error (GMTError.clibError (missingSymbolMsg f)) := by
  intro l
  induction l with
  | nil => rfl
  | cons f rest ih =>
    simp only [checkFunctions, List.find?]
    by_cases hf : lib.hasattr ("GMT_" ++ f)
    · simp [hf, ih]
    · simp [hf]

lemma coordIncs_ne_nil (c : List ℚ) (h : 2 ≤ c.length) : coordIncs c ≠ [] := by
  match c with
  | [] => simp at h
  | [a] => simp at h
  | a :: b :: u => simp [coordIncs]

lemma extractDims_no_indexError (l : List (String × List ℚ))
    (hax : ∀ p ∈ l, 2 ≤ p.2.length) :
    extractDims l ≠ Except.error PyError.indexError := by
  induction l with
  | nil => simp [extractDims]
  | cons p rest ih =>
    obtain ⟨d, coord⟩ := p
    have h2 : 2 ≤ coord.length := hax (d, coord) (List.mem_cons_self _ _)
    cases hc : coordIncs coord with
    | nil => exact absurd hc (coordIncs_ne_nil _ h2)
    | cons i0 tl =>
      rw [extractDims_cons _ _ _ _ _ hc]
      by_cases hcl : np_allclose (i0 :: tl) i0
      · rw [if_pos hcl]
        have ih2 := ih (fun q hq => hax q (List.mem_cons_of_mem _ hq))
        cases hr : extractDims rest with
        | error e =>
          simp only [Except.map]
          intro hcontra
          apply ih2
          rw [hr]
          injection hcontra with he
          rw [he]
        | ok pr => simp [Except.map]
      · rw [if_neg hcl]
        simp

lemma notFoundMsg_eq (libpath err : String) :
    notFoundMsg libpath err =
      "Couldn\x27t find the GMT shared library \x27" ++ libpath ++ "\x27." ++
        "\n" ++ "Original error message:" ++ "\n" ++ err := by
  unfold notFoundMsg String.intercalate
  simp [String.intercalate.go]

lemma get_clib_path_eq (plat : String) (env : List (String × String))
    (ext : String) (h : clib_extension plat plat = Except.ok ext) :
    get_clib_path plat env =
      match env.lookup ("GMT_LIBRARY_PATH") with
      | some dir => Except.ok (os_path_join dir ("libgmt." ++ ext))
      | none => Except.ok ("libgmt." ++ ext) := by
  have hlib : String.intercalate ("." ) [("libgmt"), ext] = "libgmt." ++ ext := by
    unfold String.intercalate
    simp [String.intercalate.go]
  simp only [get_clib_path, h, hlib]

lemma dataarray_wrong_len (g : DataArray) (h : g.dims.length ≠ 2) :
    dataarray_to_matrix g =
      Except.error (PyError.typed (GMTError.invalidInput (dimsMsg g.dims.length))) := by
  simp [dataarray_to_matrix, h]

/-! ### Claims -/

/-- C1: for every 2-D labeled grid accepted by `dataarray_to_matrix`, the
dimensions are processed in reversed order, so the region equals
`[dim2.min, dim2.max, dim1.min, dim1.max]` and the increment equals
`[dim2.spacing, dim1.spacing]` for original (rows, columns) dimensions
dim1, dim2; in particular the −90..90 × −180..180 one-degree grid yields
region `[-180, 180, -90, 90]`, inc `[1, 1]` and a C-contiguous matrix of
shape (181, 361). -/
theorem dataarray_reversed_region_inc
    (d1 d2 : String) (c1 c2 : List ℚ) (v m : NpArray) (region inc : List ℚ)
    (h : dataarray_to_matrix ⟨[(d1, c1), (d2, c2)], v⟩ = Except.ok (m, region, inc)) :
    (region = [listMin c2, listMax c2, listMin c1, listMax c1] ∧
     inc = [(coordIncs c2).headD 0, (coordIncs c1).headD 0]) ∧
    (dataarray_to_matrix exampleGrid =
       Except.ok (exampleGrid.values, [-180, 180, -90, 90], [1, 1]) ∧
     exampleGrid.values.shape = [181, 361] ∧
     exampleGrid.values.c_contiguous = true) := by
  obtain ⟨-, hr, hi⟩ := dataarray_ok_two d1 d2 c1 c2 v m region inc h
  exact ⟨⟨hr, hi⟩, dataarray_example, rfl, rfl⟩

/-- C1 witness: the general theorem applied to the one-degree global
grid. -/
theorem dataarray_reversed_region_inc_witness :
    (([(-180 : ℚ), 180, -90, 90] =
        [listMin exampleLon, listMax exampleLon, listMin exampleLat, listMax exampleLat]) ∧
     ([(1 : ℚ), 1] =
        [(coordIncs exampleLon).headD 0, (coordIncs exampleLat).headD 0])) ∧
    (dataarray_to_matrix exampleGrid =
       Except.ok (exampleGrid.values, [-180, 180, -90, 90], [1, 1]) ∧
     exampleGrid.values.shape = [181, 361] ∧
     exampleGrid.values.c_contiguous = true) :=
  dataarray_reversed_region_inc ("lat") ("lon") exampleLat exampleLon
    exampleGrid.values exampleGrid.values [-180, 180, -90, 90] [1, 1]
    dataarray_example

/-- C2: `clib_extension` maps Linux-prefixed identifiers to `so` and the
exact macOS identifier to `dylib`; for any other identifier it raises
`GMTOSError`, but the message names `sys.platform` rather than the
offending `os_name` argument — here, probing `win32` while running on
`linux` yields an error naming `linux`. -/
theorem clib_extension_behavior :
    clib_extension ("linux") ("linux") = Except.ok ("so") ∧
    clib_extension ("darwin") ("darwin") = Except.ok ("dylib") ∧
    clib_extension ("linux") ("win32") =
      Except.error
        (GMTError.osError ("Operating system \x22linux\x22 not supported.")) ∧
    clib_extension ("linux") ("win32") ≠
      Except.error
        (GMTError.osError ("Operating system \x22win32\x22 not supported.")) := by
  refine ⟨by decide, by decide, by decide, by decide⟩

/-- C3: `as_c_contiguous` is idempotent copy-on-demand: it returns a
C-contiguous input itself unchanged, and for a non-contiguous input it
returns a distinct C-contiguous array with the same data and shape. -/
theorem as_c_contiguous_spec (a : NpArray) :
    (a.c_contiguous = true → as_c_contiguous a = a) ∧
    (a.c_contiguous = false →
      (as_c_contiguous a).c_contiguous = true ∧
      (as_c_contiguous a).data = a.data ∧
      (as_c_contiguous a).shape = a.shape ∧
      as_c_contiguous a ≠ a) ∧
    as_c_contiguous (as_c_contiguous a) = as_c_contiguous a := by
  by_cases hc : a.c_contiguous
  · refine ⟨fun _ => ?_, fun hfalse => absurd hc (by simp [hfalse]), ?_⟩
    · simp [as_c_contiguous, hc]
    · simp [as_c_contiguous, hc]
  · have hc2 : a.c_contiguous = false := by simpa using hc
    refine ⟨fun htrue => absurd htrue hc, fun _ => ⟨?_, ?_, ?_, ?_⟩, ?_⟩
    · simp [as_c_contiguous, hc2]
    · simp [as_c_contiguous, hc2]
    · simp [as_c_contiguous, hc2]
    · intro heq
      have := congrArg NpArray.c_contiguous heq
      simp [as_c_contiguous, hc2] at this
    · simp [as_c_contiguous, hc2]

/-- C3 witness: the theorem applied to a contiguous array and to a
non-contiguous slice. -/
theorem as_c_contiguous_spec_witness :
    as_c_contiguous contArray = contArray ∧
    ((as_c_contiguous sliceArray).c_contiguous = true ∧
     (as_c_contiguous sliceArray).data = sliceArray.data ∧
     (as_c_contiguous sliceArray).shape = sliceArray.shape ∧
     as_c_contiguous sliceArray ≠ sliceArray) ∧
    as_c_contiguous (as_c_contiguous sliceArray) = as_c_contiguous sliceArray :=
  ⟨(as_c_contiguous_spec contArray).1 rfl,
   (as_c_contiguous_spec sliceArray).2.1 rfl,
   (as_c_contiguous_spec sliceArray).2.2⟩

/-- C4: each step of the grid-extraction loop computes the consecutive
coordinate differences; if they are not all `np.allclose` to the first one
(default tolerances) it fails with `GMTInvalidInput` naming that
dimension, and otherwise it appends `[min, max]` of the coordinates to the
region and the first difference to the increments; the loop runs over the
dimensions in reversed order. -/
theorem extract_step_spec (g : DataArray) (d : String) (coord : List ℚ)
    (rest : List (String × List ℚ)) (i0 : ℚ) (tl : List ℚ)
    (hinc : coordIncs coord = i0 :: tl) :
    (np_allclose (i0 :: tl) i0 = false →
      extractDims ((d, coord) :: rest) =
        Except.error (PyError.typed (GMTError.invalidInput (irregularMsg d)))) ∧
    (np_allclose (i0 :: tl) i0 = true →
      extractDims ((d, coord) :: rest) =
        Except.map (fun p => (listMin coord :: listMax coord :: p.1, i0 :: p.2))
          (extractDims rest)) ∧
    (g.dims.length = 2 →
      dataarray_to_matrix g =
        Except.map (fun p => (as_c_contiguous g.values, p.1, p.2))
          (extractDims g.dims.reverse)) := by
  refine ⟨fun hfalse => ?_, fun htrue => ?_, fun hlen => dataarray_to_matrix_two g hlen⟩
  · rw [extractDims_cons _ _ _ _ _ hinc, if_neg (by simp [hfalse])]
  · rw [extractDims_cons _ _ _ _ _ hinc, if_pos htrue]

/-- C4 witness: the theorem applied to an axis `0, 1, 3` with irregular
differences `1, 2`, inside the concrete grid `irrGrid`. -/
theorem extract_step_spec_witness :
    (np_allclose [1, 2] 1 = false →
      extractDims [("lon", [(0 : ℚ), 1, 3])] =
        Except.error
          (PyError.typed (GMTError.invalidInput (irregularMsg ("lon"))))) ∧
    (np_allclose [1, 2] 1 = true →
      extractDims [("lon", [(0 : ℚ), 1, 3])] =
        Except.map
          (fun p => (listMin [(0 : ℚ), 1, 3] :: listMax [(0 : ℚ), 1, 3] :: p.1, 1 :: p.2))
          (extractDims [])) ∧
    (irrGrid.dims.length = 2 →
      dataarray_to_matrix irrGrid =
        Except.map (fun p => (as_c_contiguous irrGrid.values, p.1, p.2))
          (extractDims irrGrid.dims.reverse)) :=
  extract_step_spec irrGrid ("lon") [(0 : ℚ), 1, 3] [] 1 [2]
    (by norm_num [coordIncs])

/-- C5: a grid whose dimension count is not two is rejected with
`GMTInvalidInput` naming the actual dimension count, and no result is
produced. -/
theorem dataarray_wrong_ndims (g : DataArray) (h : g.dims.length ≠ 2) :
    dataarray_to_matrix g =
      Except.error (PyError.typed (GMTError.invalidInput (dimsMsg g.dims.length))) :=
  dataarray_wrong_len g h

/-- C5 witness: the theorem applied to a three-dimensional grid; the
message names `3`. -/
theorem dataarray_wrong_ndims_witness :
    dataarray_to_matrix grid3 =
      Except.error (PyError.typed (GMTError.invalidInput (dimsMsg 3))) ∧
    dimsMsg 3 = "Invalid number of grid dimensions \x273\x27. Must be 2." :=
  ⟨dataarray_wrong_ndims grid3 (by decide), by decide⟩

/-- C6: `check_libgmt` checks the four required entry points in the fixed
order Create_Session, Get_Enum, Call_Module, Destroy_Session (each with
the GMT_ prefix); the first missing one in that order determines the
`GMTCLibError`, and a handle exposing all four passes silently. -/
theorem check_libgmt_spec (lib : CDLL) :
    check_libgmt lib =
      (match required_functions.find? (fun f => ! lib.hasattr ("GMT_" ++ f)) with
       | none => Except.ok ()
       | some f => Except.error (GMTError.clibError (missingSymbolMsg f))) ∧
    required_functions =
      [("Create_Session"), ("Get_Enum"), ("Call_Module"), ("Destroy_Session")] :=
  ⟨checkFunctions_eq lib required_functions, rfl⟩

/-- C7: when the platform-level open of the resolved path fails,
`load_libgmt` raises `GMTCLibNotFoundError` with a message embedding the
attempted path and the underlying system error text, never the raw load
error; and when symbol validation fails after a successful open, the
partially-opened handle is not returned. -/
theorem load_libgmt_wraps (plat : String)
    (opener : String → Except String CDLL) (env : List (String × String))
    (libpath : String) (hp : get_clib_path plat env = Except.ok libpath) :
    (∀ err, opener libpath = Except.error err →
      load_libgmt plat opener env =
        Except.error (GMTError.clibNotFound
          ("Couldn\x27t find the GMT shared library \x27" ++ libpath ++ "\x27." ++
            "\n" ++ "Original error message:" ++ "\n" ++ err))) ∧
    (∀ lib e, opener libpath = Except.ok lib →
      check_libgmt lib = Except.error e →
      load_libgmt plat opener env = Except.error e) := by
  constructor
  · intro err herr
    simp only [load_libgmt, hp, herr, notFoundMsg_eq]
  · intro lib e hlib hchk
    simp only [load_libgmt, hp, hlib, hchk]

/-- C7 witness: the theorem applied to an opener that fails with a system
error text. -/
theorem load_libgmt_wraps_witness :
    (∀ err,
      (fun _ => (Except.error ("cannot open shared object file") :
          Except String CDLL)) ("libgmt.so") = Except.error err →
      load_libgmt ("linux")
          (fun _ => Except.error ("cannot open shared object file")) [] =
        Except.error (GMTError.clibNotFound
          ("Couldn\x27t find the GMT shared library \x27" ++ "libgmt.so" ++ "\x27." ++
            "\n" ++ "Original error message:" ++ "\n" ++ err))) ∧
    (∀ lib e,
      (fun _ => (Except.error ("cannot open shared object file") :
          Except String CDLL)) ("libgmt.so") = Except.ok lib →
      check_libgmt lib = Except.error e →
      load_libgmt ("linux")
          (fun _ => Except.error ("cannot open shared object file")) [] =
        Except.error e) :=
  load_libgmt_wraps ("linux")
    (fun _ => Except.error ("cannot open shared object file")) []
    ("libgmt.so") (by decide)

/-- C8: `get_clib_path` joins the `GMT_LIBRARY_PATH` directory with the
fixed filename `libgmt.<ext>` when the variable is present, and returns
the bare filename when it is absent; concretely, `/opt/gmt` gives
`/opt/gmt/libgmt.so` and the empty mapping gives `libgmt.so` on Linux. -/
theorem get_clib_path_spec (plat : String) (env : List (String × String))
    (ext : String) (h : clib_extension plat plat = Except.ok ext) :
    (∀ dir, env.lookup ("GMT_LIBRARY_PATH") = some dir →
      get_clib_path plat env = Except.ok (os_path_join dir ("libgmt." ++ ext))) ∧
    (env.lookup ("GMT_LIBRARY_PATH") = none →
      get_clib_path plat env = Except.ok ("libgmt." ++ ext)) ∧
    get_clib_path ("linux") [("GMT_LIBRARY_PATH", "/opt/gmt")] =
      Except.ok ("/opt/gmt/libgmt.so") ∧
    get_clib_path ("linux") [] = Except.ok ("libgmt.so") := by
  refine ⟨fun dir hdir => ?_, fun hnone => ?_, by decide, by decide⟩
  · rw [get_clib_path_eq plat env ext h, hdir]
  · rw [get_clib_path_eq plat env ext h, hnone]

/-- C8 witness: the theorem applied on Linux to a mapping carrying
`GMT_LIBRARY_PATH=/opt/gmt`. -/
theorem get_clib_path_spec_witness :
    (∀ dir,
      ([("GMT_LIBRARY_PATH", "/opt/gmt")].lookup ("GMT_LIBRARY_PATH")) = some dir →
      get_clib_path ("linux") [("GMT_LIBRARY_PATH", "/opt/gmt")] =
        Except.ok (os_path_join dir ("libgmt." ++ "so"))) ∧
    (([("GMT_LIBRARY_PATH", "/opt/gmt")].lookup ("GMT_LIBRARY_PATH")) = none →
      get_clib_path ("linux") [("GMT_LIBRARY_PATH", "/opt/gmt")] =
        Except.ok ("libgmt." ++ "so")) ∧
    get_clib_path ("linux") [("GMT_LIBRARY_PATH", "/opt/gmt")] =
      Except.ok ("/opt/gmt/libgmt.so") ∧
    get_clib_path ("linux") [] = Except.ok ("libgmt.so") :=
  get_clib_path_spec ("linux") [("GMT_LIBRARY_PATH", "/opt/gmt")] ("so")
    (by decide)

/-- C9 counterexample: on a two-dimensional grid whose row axis has a
single coordinate point, `dataarray_to_matrix` fails with the raw untyped
IndexError (from indexing the empty difference array), not with one of the
typed errors of the package — refuting the claim that every failure of the
Grid Extractor is raised as a typed error kind. -/
theorem dataarray_untyped_escape :
    dataarray_to_matrix shortAxisGrid = Except.error PyError.indexError ∧
    noUntypedError (dataarray_to_matrix shortAxisGrid) = false := by
  have h : dataarray_to_matrix shortAxisGrid = Except.error PyError.indexError := by
    norm_num [dataarray_to_matrix, extractDims, coordIncs, np_allclose, np_isclose,
      listMin, listMax, shortAxisGrid, abs]
  exact ⟨h, by rw [h]; rfl⟩

/-- C9 (amended): for every grid all of whose coordinate axes have at
least two points, any failure of `dataarray_to_matrix` is one of the typed
error kinds; an axis with fewer than two points instead escapes as the raw
untyped IndexError. -/
theorem dataarray_typed_failures (g : DataArray)
    (hax : ∀ p ∈ g.dims, 2 ≤ p.2.length) (e : PyError)
    (he : dataarray_to_matrix g = Except.error e) :
    ∃ t, e = PyError.typed t := by
  cases e with
  | typed t => exact ⟨t, rfl⟩
  | indexError =>
    exfalso
    by_cases hlen : g.dims.length = 2
    · rw [dataarray_to_matrix_two g hlen] at he
      have hrev : ∀ p ∈ g.dims.reverse, 2 ≤ p.2.length := by
        intro p hp
        exact hax p (List.mem_reverse.mp hp)
      cases hE : extractDims g.dims.reverse with
      | error e2 =>
        rw [hE] at he
        simp only [Except.map] at he
        injection he with he2
        exact extractDims_no_indexError g.dims.reverse hrev (by rw [hE, he2])
      | ok p =>
        rw [hE] at he
        simp [Except.map] at he
    · rw [dataarray_wrong_len g hlen] at he
      cases he

/-- C9 amended-claim witness: applied to the three-dimensional grid (all
axes have two points); its failure is the typed invalid-input error. -/
theorem dataarray_typed_failures_witness :
    ∃ t, PyError.typed (GMTError.invalidInput (dimsMsg 3)) = PyError.typed t :=
  dataarray_typed_failures grid3 (by decide)
    (PyError.typed (GMTError.invalidInput (dimsMsg 3)))
    (by norm_num [dataarray_to_matrix, grid3])

/-- C10: for any 2-D grid accepted by `dataarray_to_matrix`, a negative
first consecutive difference in a dimension yields a negative increment
entry for that dimension while the region entries stay ordered as
`[min, max]`; concretely, the grid with uniformly decreasing rows
`2, 1, 0` succeeds with increments `[1, -1]`. -/
theorem dataarray_decreasing_axis
    (d1 d2 : String) (c1 c2 : List ℚ) (v m : NpArray) (region inc : List ℚ)
    (h : dataarray_to_matrix ⟨[(d1, c1), (d2, c2)], v⟩ = Except.ok (m, region, inc)) :
    ((coordIncs c1).headD 0 < 0 → inc.getD 1 0 < 0) ∧
    ((coordIncs c2).headD 0 < 0 → inc.getD 0 0 < 0) ∧
    region = [listMin c2, listMax c2, listMin c1, listMax c1] ∧
    dataarray_to_matrix decGrid =
      Except.ok (decGrid.values, [0, 2, 0, 2], [1, -1]) := by
  obtain ⟨-, hr, hi⟩ := dataarray_ok_two d1 d2 c1 c2 v m region inc h
  refine ⟨?_, ?_, hr, ?_⟩
  · intro hneg
    rw [hi]
    simpa using hneg
  · intro hneg
    rw [hi]
    simpa using hneg
  · norm_num [dataarray_to_matrix, extractDims, coordIncs, np_allclose, np_isclose,
      listMin, listMax, as_c_contiguous, decGrid, abs]

/-- C10 witness: the theorem applied to the decreasing-rows grid. -/
theorem dataarray_decreasing_axis_witness :
    ((coordIncs [(2 : ℚ), 1, 0]).headD 0 < 0 → ([(1 : ℚ), -1].getD 1 0) < 0) ∧
    ((coordIncs [(0 : ℚ), 1, 2]).headD 0 < 0 → ([(1 : ℚ), -1].getD 0 0) < 0) ∧
    ([(0 : ℚ), 2, 0, 2] =
      [listMin [(0 : ℚ), 1, 2], listMax [(0 : ℚ), 1, 2],
       listMin [(2 : ℚ), 1, 0], listMax [(2 : ℚ), 1, 0]]) ∧
    dataarray_to_matrix decGrid =
      Except.ok (decGrid.values, [0, 2, 0, 2], [1, -1]) :=
  dataarray_decreasing_axis ("lat") ("lon") [(2 : ℚ), 1, 0] [(0 : ℚ), 1, 2]
    decGrid.values decGrid.values [0, 2, 0, 2] [1, -1]
    (by norm_num [dataarray_to_matrix, extractDims, coordIncs, np_allclose, np_isclose,
      listMin, listMax, as_c_contiguous, decGrid, abs])

end GmtClib
